import Mathlib

/-!
Shallow embedding of the request-orchestration layer of RustWeb2 (`src/main.rs`):
startup configuration, role selection, background-task spawning, and the
single-writer executor thread (its dequeue/run/log/save/notify/reply loop).

The storage engine (`rustdb`), the serialization crate (`rmp_serde`) and the
task/request modules are external to the given source; where a claim depends on
their behaviour they are modelled from the specification, marked as such in the
doc comment of the corresponding definition.
-/

namespace RustWeb

/-- Command-line arguments (`struct Args` in `main.rs`). Ports, addresses and
credentials are carried verbatim; clap parsing itself is out of scope. -/
structure Args where
  port : Nat
  ip : String
  dos_count : Nat
  dos_read : Nat
  dos_cpu : Nat
  dos_write : Nat
  mem : Nat
  rep : String
  login : String
  tracetime : Bool
  tracemem : Bool
  tracedos : Bool
deriving Repr, DecidableEq

/-- `let is_master = args.rep.is_empty();` (main.rs line 7). -/
def is_master (args : Args) : Bool := args.rep.isEmpty

/-- The fields of `share::SharedState` that the given source constructs
(main.rs lines 33-47); channels and the engine handle are modelled separately. -/
structure SharedState where
  is_master : Bool
  replicate_source : String
  replicate_credentials : String
  dos_limit : List Nat
  tracetime : Bool
  tracedos : Bool
deriving Repr, DecidableEq

/-- Construction of the shared state at startup (main.rs lines 33-47). -/
def mkSharedState (args : Args) : SharedState :=
  { is_master := is_master args
    replicate_source := args.rep
    replicate_credentials := args.login
    dos_limit := [args.dos_count, args.dos_read, args.dos_cpu, args.dos_write]
    tracetime := args.tracetime
    tracedos := args.tracedos }

/-- The background tasks spawned at startup (main.rs lines 49-65). -/
inductive BgTask where
  | email
  | sleep
  | sync
  | u_decay
deriving Repr, DecidableEq

/-- Tasks spawned at startup: email and sleep loops when master, the sync loop
otherwise, and the ip-decay loop in every role (main.rs lines 49-65). -/
def spawnedTasks (m : Bool) : List BgTask :=
  (if m then [BgTask.email, BgTask.sleep] else [BgTask.sync]) ++ [BgTask.u_decay]

/-- Capacity of the executor input channel:
`mpsc::channel::<share::ServerMessage>(1)` (main.rs line 26). -/
def serverChannelCapacity : Nat := 1

/-- Semantics of the bounded mpsc channel holding the executor queue: a send
completes only when the queue holds fewer than `serverChannelCapacity` items
(otherwise the submitter blocks), a receive removes the front item. -/
inductive QueueStep (α : Type) : List α → List α → Prop where
  | send (a : α) (q : List α) : q.length < serverChannelCapacity →
      QueueStep α q (q ++ [a])
  | recv (a : α) (q : List α) : QueueStep α (a :: q) q

/-- A send attempt that does not block: succeeds only below capacity. -/
def trySend {α : Type} (q : List α) (a : α) : Option (List α) :=
  if q.length < serverChannelCapacity then some (q ++ [a]) else none

/-- The serializable payload of a work item (`sm.st.x.qy`, a `rustdb` Query);
only the SQL text is visible in the given source. -/
structure Query where
  sql : String
deriving Repr, DecidableEq

/-- `GenTransaction` as used by the loop: carries the query payload. -/
structure GenTransaction where
  qy : Query
deriving Repr, DecidableEq

/-- `sm.st`: the transaction state travelling with a work item, with its
`log` flag ("durable/logged"). -/
structure ServerTrans where
  log : Bool
  x : GenTransaction
deriving Repr, DecidableEq

/-- A work item (`share::ServerMessage`): transaction state plus the reply
channel; `replyAlive` records whether the oneshot receiver still exists. -/
structure ServerMessage where
  st : ServerTrans
  replyAlive : Bool
deriving Repr, DecidableEq

/-- Modelled from the spec: `rmp_serde::to_vec(&sm.st.x.qy)` (the rmp_serde
crate is external to the given source). Serializes a query to bytes. -/
def rmp_to_vec (q : Query) : List Nat := q.sql.data.map Char.toNat

/-- Modelled from the spec: the matching rmp_serde deserialization used by a
replica to reconstruct the logged operation. -/
def rmp_from_vec (bytes : List Nat) : Option Query :=
  some { sql := String.mk (bytes.map Char.ofNat) }

/-- A row of the `log.Transaction` table: allocated id plus the serialized
transaction in `values[0]` (main.rs lines 91-94). -/
structure Row where
  id : Int
  value : List Nat
deriving Repr, DecidableEq

/-- The `log.Transaction` table: an id allocator and the append-only rows. -/
structure Table where
  next_id : Nat
  rows : List Row
deriving Repr, DecidableEq

/-- `t.alloc_id()`: the next free row id. -/
def Table.alloc_id (t : Table) : Nat := t.next_id

/-- `t.insert(&db, &mut row)` for a freshly allocated row: appends a row with
`id = t.alloc_id() as i64` and the serialized payload in `values[0]`. -/
def Table.insertSer (t : Table) (v : List Nat) : Table :=
  { next_id := t.next_id + 1
    rows := t.rows ++ [{ id := (t.alloc_id : Int), value := v }] }

/-- The engine state visible to the writer thread: `db.is_new`, the
initialisation string the database was constructed with, and the
`log.Transaction` table when `db.get_table` finds it. -/
structure Db where
  is_new : Bool
  initSql : String
  logTable : Option Table
deriving Repr, DecidableEq

/-- Modelled from the spec: the outcome the external `rustdb` engine reports
for one work item — whether `db.changed()` holds after `db.run`, and the
result of `db.save()` (`some updates` pages committed, `none` when the
atomic-commit step fails, which panics the writer thread). -/
structure EngineOutcome where
  changed : Bool
  saveResult : Option Nat
deriving Repr, DecidableEq

/-- Observable actions of the writer thread, in program order. -/
inductive Event where
  | openDb (initStr : String) (isNew : Bool)
  | recover
  | syncSend (b : Bool)
  | run (sql : String)
  | logAppend (payload : List Nat)
  | save (updates : Nat)
  | saveFail
  | notify
  | reply (delivered : Bool)
deriving Repr, DecidableEq

def isSyncSend : Event → Bool
  | .syncSend _ => true
  | _ => false

def isReply : Event → Bool
  | .reply _ => true
  | _ => false

def isNotify : Event → Bool
  | .notify => true
  | _ => false

def isRecover : Event → Bool
  | .recover => true
  | _ => false

/-- Engine-state effect of the logging step (main.rs lines 86-96): when
`sm.st.log && db.changed()` and `db.get_table(("log","Transaction"))` is
present, the serialized transaction is appended to that table. -/
def logStepDb (db : Db) (sm : ServerMessage) (oc : EngineOutcome) : Db :=
  if sm.st.log && oc.changed then
    match db.logTable with
    | some t => { db with logTable := some (t.insertSer (rmp_to_vec sm.st.x.qy)) }
    | none => db
  else db

/-- Events emitted by the logging step (main.rs lines 86-96). -/
def logStepEvents (db : Db) (sm : ServerMessage) (oc : EngineOutcome) :
    List Event :=
  if sm.st.log && oc.changed then
    match db.logTable with
    | some _ => [Event.logAppend (rmp_to_vec sm.st.x.qy)]
    | none => []
  else []

/-- Events of the persist-and-reply tail of an iteration (main.rs lines
97-106): `db.save()`; on success notify the wait channel when pages were
updated, then send the reply (its result is discarded); a failing save panics
before any notify or reply. -/
def saveEvents (sm : ServerMessage) (oc : EngineOutcome) : List Event :=
  match oc.saveResult with
  | none => [Event.saveFail]
  | some updates =>
      [Event.save updates] ++ (if 0 < updates then [Event.notify] else []) ++
        [Event.reply sm.replyAlive]

/-- One iteration of the executor loop (main.rs lines 82-107): run the query,
do the logging step, then persist/notify/reply. The returned flag is whether
the thread survives the iteration (`db.save()` did not fail). -/
def processItem (db : Db) (sm : ServerMessage) (oc : EngineOutcome) :
    Db × List Event × Bool :=
  (logStepDb db sm oc,
    [Event.run sm.st.x.qy.sql] ++ logStepEvents db sm oc ++ saveEvents sm oc,
    oc.saveResult.isSome)

/-- The executor loop: dequeue items in order and process each; stops (the
thread dies) when an iteration reports a fatal save failure. Returns the final
engine state, the event trace, and the number of items dequeued. -/
def writerLoop (db : Db) : List (ServerMessage × EngineOutcome) →
    Db × List Event × Nat
  | [] => (db, [], 0)
  | (sm, oc) :: rest =>
      let step := processItem db sm oc
      if step.2.2 then
        let next := writerLoop step.1 rest
        (next.1, step.2.1 ++ next.2.1, next.2.2 + 1)
      else (step.1, step.2.1, 1)

/-- `Database::new(wapd, if is_master { init::INITSQL } else { "" }, bmap)`
(main.rs line 75): the initialisation string is INITSQL exactly when master.
`isNew` and `logT` are the engine-determined parts of the opened state. -/
def openDatabase (m : Bool) (INITSQL : String) (isNew : Bool)
    (logT : Option Table) : Db :=
  { is_new := isNew, initSql := if m then INITSQL else "", logTable := logT }

/-- The writer thread (main.rs lines 69-108): open the database (line 75; the
recovery call on line 77 is commented out and never runs), send `db.is_new`
over the oneshot sync channel when not master (lines 79-81), then run the
executor loop. -/
def writerThread (m : Bool) (INITSQL : String) (isNew : Bool)
    (logT : Option Table) (items : List (ServerMessage × EngineOutcome)) :
    Db × List Event × Nat :=
  let db := openDatabase m INITSQL isNew logT
  let startEvs := [Event.openDb db.initSql db.is_new] ++
    (if m then [] else [Event.syncSend db.is_new])
  let rest := writerLoop db items
  (rest.1, startEvs ++ rest.2.1, rest.2.2)

/-- What `main` fixes at startup: the shared state, the set of spawned
background tasks, and the role captured by the writer-thread closure
(main.rs lines 7, 33-47, 49-65, 69-75). -/
structure ServerConfig where
  ss : SharedState
  spawned : List BgTask
  writerRole : Bool
deriving Repr, DecidableEq

/-- Startup: the role is computed once from `args.rep` and used for the shared
state, the task set and the writer thread. -/
def serverMain (args : Args) : ServerConfig :=
  { ss := mkSharedState args
    spawned := spawnedTasks (is_master args)
    writerRole := is_master args }

/-! Concrete sample values used by witnesses and counterexamples. -/

def q0 : Query := { sql := "u" }

def sm0 : ServerMessage := { st := { log := true, x := { qy := q0 } }, replyAlive := true }

def oc0 : EngineOutcome := { changed := true, saveResult := some 2 }

def ocFail : EngineOutcome := { changed := false, saveResult := none }

def table0 : Table := { next_id := 5, rows := [] }

def db0 : Db := { is_new := false, initSql := "", logTable := some table0 }

/-! Helper lemmas about the loop-body pieces. -/

theorem logStepEvents_eq (db : Db) (sm : ServerMessage) (oc : EngineOutcome) :
    logStepEvents db sm oc =
      if sm.st.log && oc.changed && db.logTable.isSome
      then [Event.logAppend (rmp_to_vec sm.st.x.qy)] else [] := by
  cases hl : sm.st.log <;> cases hc : oc.changed <;> cases ht : db.logTable <;>
    simp [logStepEvents, hl, hc, ht]

theorem logAppend_not_mem_saveEvents (sm : ServerMessage) (oc : EngineOutcome)
    (pay : List Nat) : Event.logAppend pay ∉ saveEvents sm oc := by
  cases hs : oc.saveResult <;> simp [saveEvents, hs]

theorem countP_logStepEvents_sync (db : Db) (sm : ServerMessage)
    (oc : EngineOutcome) : (logStepEvents db sm oc).countP isSyncSend = 0 := by
  rw [logStepEvents_eq]; split <;> simp [isSyncSend]

theorem countP_saveEvents_sync (sm : ServerMessage) (oc : EngineOutcome) :
    (saveEvents sm oc).countP isSyncSend = 0 := by
  cases hs : oc.saveResult <;> simp [saveEvents, hs, isSyncSend]

theorem countP_processItem_sync (db : Db) (sm : ServerMessage)
    (oc : EngineOutcome) : ((processItem db sm oc).2.1).countP isSyncSend = 0 := by
  simp [processItem, List.countP_append, countP_logStepEvents_sync,
    countP_saveEvents_sync, isSyncSend]

theorem countP_logStepEvents_recover (db : Db) (sm : ServerMessage)
    (oc : EngineOutcome) : (logStepEvents db sm oc).countP isRecover = 0 := by
  rw [logStepEvents_eq]; split <;> simp [isRecover]

theorem countP_saveEvents_recover (sm : ServerMessage) (oc : EngineOutcome) :
    (saveEvents sm oc).countP isRecover = 0 := by
  cases hs : oc.saveResult <;> simp [saveEvents, hs, isRecover]

theorem countP_processItem_recover (db : Db) (sm : ServerMessage)
    (oc : EngineOutcome) : ((processItem db sm oc).2.1).countP isRecover = 0 := by
  simp [processItem, List.countP_append, countP_logStepEvents_recover,
    countP_saveEvents_recover, isRecover]

theorem writerLoop_countP_zero (p : Event → Bool)
    (hp : ∀ db sm oc, ((processItem db sm oc).2.1).countP p = 0) :
    ∀ (items : List (ServerMessage × EngineOutcome)) (db : Db),
      ((writerLoop db items).2.1).countP p = 0 := by
  intro items
  induction items with
  | nil => intro db; simp [writerLoop]
  | cons it rest ih =>
      intro db
      obtain ⟨sm, oc⟩ := it
      simp only [writerLoop]
      split
      · simp [List.countP_append, hp, ih]
      · simp [hp]

theorem countP_logStepEvents_reply (db : Db) (sm : ServerMessage)
    (oc : EngineOutcome) : (logStepEvents db sm oc).countP isReply = 0 := by
  rw [logStepEvents_eq]; split <;> simp [isReply]

theorem countP_logStepEvents_notify (db : Db) (sm : ServerMessage)
    (oc : EngineOutcome) : (logStepEvents db sm oc).countP isNotify = 0 := by
  rw [logStepEvents_eq]; split <;> simp [isNotify]

theorem writerLoop_length_le (items : List (ServerMessage × EngineOutcome)) :
    ∀ db : Db, (writerLoop db items).2.2 ≤ items.length := by
  induction items with
  | nil => intro db; simp [writerLoop]
  | cons it rest ih =>
      intro db
      obtain ⟨sm, oc⟩ := it
      simp only [writerLoop, List.length_cons]
      split
      · exact Nat.add_le_add_right (ih _) 1
      · simp

/-! Claim theorems. -/

/-- C3: the process role is determined solely by the replication-source
configuration: for every argument vector the process runs as master iff
`args.rep` is the empty string, and this one role, stored in `SharedState` at
startup, is the same role the writer thread and the task spawner use. -/
theorem role_determined_by_replication_source (args : Args) :
    ((serverMain args).ss.is_master = true ↔ args.rep = "") ∧
    (serverMain args).writerRole = (serverMain args).ss.is_master ∧
    (serverMain args).spawned = spawnedTasks (serverMain args).ss.is_master ∧
    (serverMain args).ss.replicate_source = args.rep := by
  refine ⟨?_, rfl, rfl, rfl⟩
  simp [serverMain, mkSharedState, is_master, String.isEmpty_iff]

/-- C4: at startup the email and sleep tasks are spawned iff master, the sync
task is spawned iff replica, and the resource-decay task in every role. -/
theorem background_tasks_by_role (m : Bool) :
    (BgTask.email ∈ spawnedTasks m ↔ m = true) ∧
    (BgTask.sleep ∈ spawnedTasks m ↔ m = true) ∧
    (BgTask.sync ∈ spawnedTasks m ↔ m = false) ∧
    BgTask.u_decay ∈ spawnedTasks m := by
  cases m <;> decide

/-- C8: the executor input queue is a bounded channel of capacity exactly 1:
every queue state reachable from the empty queue holds at most one
submitted-but-not-yet-dequeued item, and a further send on a full queue does
not complete (the submitter blocks). -/
theorem executor_queue_capacity_one (q : List ServerMessage)
    (h : Relation.ReflTransGen (QueueStep ServerMessage) [] q) :
    serverChannelCapacity = 1 ∧ q.length ≤ 1 ∧
    ∀ a : ServerMessage, q.length = 1 → trySend q a = none := by
  refine ⟨rfl, ?_, ?_⟩
  · induction h with
    | refl => simp
    | tail _ step ih =>
        cases step with
        | send a w hlt =>
            have h0 := Nat.lt_one_iff.mp hlt
            simp only [List.length_append, List.length_singleton]
            omega
        | recv a w =>
            exact Nat.le_of_succ_le (by simpa using ih)
  · intro a hq
    simp [trySend, serverChannelCapacity, hq]

/-- Witness for C8 at the concrete reachable queue `[sm0]`. -/
theorem executor_queue_capacity_one_witness :
    serverChannelCapacity = 1 ∧ ([sm0]).length ≤ 1 ∧
    ∀ a : ServerMessage, ([sm0]).length = 1 → trySend [sm0] a = none :=
  executor_queue_capacity_one [sm0]
    (Relation.ReflTransGen.single (QueueStep.send sm0 [] (by decide)))

/-- C1 (counterexample): on a non-master process (role `false`), a work item
flagged as logged whose execution produced a change does append a
`TransactionLogEntry` to the present `log.Transaction` table — the executor
loop (main.rs line 86) never consults the role. -/
theorem replica_log_append_counterexample :
    Event.logAppend (rmp_to_vec q0) ∈
      (writerThread false "CREATE SCHEMA log" false (some table0)
        [(sm0, oc0)]).2.1 ∧
    (writerThread false "CREATE SCHEMA log" false (some table0)
        [(sm0, oc0)]).1.logTable =
      some { next_id := 6, rows := [{ id := 5, value := rmp_to_vec q0 }] } := by
  constructor
  · decide
  · decide

/-- C1 (amended): in every iteration of the executor loop, a
`TransactionLogEntry` is appended iff the item is flagged as logged, the
execution produced a change, and the `log.Transaction` table exists; the
master role is not consulted. -/
theorem log_append_iff (db : Db) (sm : ServerMessage) (oc : EngineOutcome) :
    (∃ pay, Event.logAppend pay ∈ (processItem db sm oc).2.1) ↔
      (sm.st.log = true ∧ oc.changed = true ∧ db.logTable.isSome = true) := by
  have hns := logAppend_not_mem_saveEvents sm oc
  cases hl : sm.st.log <;> cases hc : oc.changed <;> cases ht : db.logTable <;>
    simp [processItem, logStepEvents_eq, hl, hc, ht, hns]

/-- C2: after a fatal persist failure the executor stops: the result of the
loop does not depend on the items queued after the failing one (they are never
dequeued, executed or committed), and at most the items up to and including
the failing one are dequeued. -/
theorem persist_failure_stops_executor (db : Db)
    (pre post : List (ServerMessage × EngineOutcome))
    (it : ServerMessage × EngineOutcome) (hfail : it.2.saveResult = none) :
    writerLoop db (pre ++ it :: post) = writerLoop db (pre ++ [it]) ∧
    (writerLoop db (pre ++ it :: post)).2.2 ≤ pre.length + 1 := by
  have key : ∀ (l : List (ServerMessage × EngineOutcome)) (d : Db),
      writerLoop d (l ++ it :: post) = writerLoop d (l ++ [it]) := by
    intro l
    induction l with
    | nil =>
        intro d
        obtain ⟨sm, oc⟩ := it
        have hf : oc.saveResult = none := hfail
        simp [writerLoop, processItem, hf]
    | cons p rest ih =>
        intro d
        obtain ⟨sm, oc⟩ := p
        by_cases halive : (processItem d sm oc).2.2 = true
        · simp [writerLoop, halive, ih]
        · simp [writerLoop, halive]
  refine ⟨key pre db, ?_⟩
  rw [key pre db]
  calc (writerLoop db (pre ++ [it])).2.2 ≤ (pre ++ [it]).length :=
        writerLoop_length_le _ db
    _ = pre.length + 1 := by simp

/-- Witness for C2: a failing item with one further item queued behind it. -/
theorem persist_failure_stops_executor_witness :
    writerLoop db0 ([] ++ (sm0, ocFail) :: [(sm0, oc0)]) =
      writerLoop db0 ([] ++ [(sm0, ocFail)]) ∧
    (writerLoop db0 ([] ++ (sm0, ocFail) :: [(sm0, oc0)])).2.2 ≤
      List.length ([] : List (ServerMessage × EngineOutcome)) + 1 :=
  persist_failure_stops_executor db0 [] [(sm0, oc0)] (sm0, ocFail) rfl

/-- C5: for every work item whose persist step completes, exactly one reply is
sent, and only after the run and the save events; the reply result is
discarded, so the resulting engine state and the survival of the loop do not
depend on whether the receiver was dropped, and the loop continues. -/
theorem reply_exactly_once (db : Db) (sm : ServerMessage) (oc : EngineOutcome)
    (u : Nat) (hok : oc.saveResult = some u) :
    ((processItem db sm oc).2.1.countP isReply = 1) ∧
    (∃ l, (processItem db sm oc).2.1 = l ++ [Event.reply sm.replyAlive] ∧
      Event.run sm.st.x.qy.sql ∈ l ∧ Event.save u ∈ l ∧
      l.countP isReply = 0) ∧
    (processItem db { sm with replyAlive := false } oc).1 =
      (processItem db sm oc).1 ∧
    (processItem db { sm with replyAlive := false } oc).2.2 =
      (processItem db sm oc).2.2 ∧
    (processItem db sm oc).2.2 = true := by
  refine ⟨?_,
    ⟨[Event.run sm.st.x.qy.sql] ++ logStepEvents db sm oc ++
        ([Event.save u] ++ (if 0 < u then [Event.notify] else [])),
      ?_, ?_, ?_, ?_⟩, rfl, rfl, ?_⟩
  · by_cases hu : 0 < u <;>
      simp [processItem, saveEvents, hok, hu, List.countP_append,
        List.countP_cons, isReply, countP_logStepEvents_reply]
  · simp [processItem, saveEvents, hok, List.append_assoc]
  · simp
  · simp
  · by_cases hu : 0 < u <;>
      simp [List.countP_append, List.countP_cons, hu, isReply,
        countP_logStepEvents_reply]
  · simp [processItem, hok]

/-- Witness for C5 at a concrete completed item. -/
theorem reply_exactly_once_witness :
    ((processItem db0 sm0 oc0).2.1.countP isReply = 1) ∧
    (∃ l, (processItem db0 sm0 oc0).2.1 = l ++ [Event.reply sm0.replyAlive] ∧
      Event.run sm0.st.x.qy.sql ∈ l ∧ Event.save 2 ∈ l ∧
      l.countP isReply = 0) ∧
    (processItem db0 { sm0 with replyAlive := false } oc0).1 =
      (processItem db0 sm0 oc0).1 ∧
    (processItem db0 { sm0 with replyAlive := false } oc0).2.2 =
      (processItem db0 sm0 oc0).2.2 ∧
    (processItem db0 sm0 oc0).2.2 = true :=
  reply_exactly_once db0 sm0 oc0 2 rfl

/-- C6: the writer thread performs the sync handshake exactly when running as
replica: its trace is the openDb event, then — replica only — a single
`syncSend` carrying `db.is_new`, then loop events containing no syncSend; so
the handshake is sent before any work item and the total count of handshake
sends is 0 for a master and 1 for a replica. -/
theorem sync_handshake_exactly_once (m : Bool) (I : String) (n : Bool)
    (t : Option Table) (items : List (ServerMessage × EngineOutcome)) :
    ∃ loopEvs : List Event,
      (writerThread m I n t items).2.1 =
        Event.openDb (if m then I else "") n ::
          ((if m then [] else [Event.syncSend n]) ++ loopEvs) ∧
      loopEvs.countP isSyncSend = 0 ∧
      (writerThread m I n t items).2.1.countP isSyncSend =
        (if m then 0 else 1) := by
  refine ⟨(writerLoop (openDatabase m I n t) items).2.1, ?_, ?_, ?_⟩
  · cases m <;> simp [writerThread, openDatabase]
  · exact writerLoop_countP_zero isSyncSend countP_processItem_sync items _
  · cases m <;>
      simp [writerThread, openDatabase, List.countP_append, List.countP_cons,
        isSyncSend,
        writerLoop_countP_zero isSyncSend countP_processItem_sync items]

/-- C7: in an iteration whose persist step reports `u` updated pages, a
ChangeNotification is broadcast iff `0 < u`: exactly one notify event when
positive, none when zero. -/
theorem notify_iff_pages_updated (db : Db) (sm : ServerMessage)
    (oc : EngineOutcome) (u : Nat) (hok : oc.saveResult = some u) :
    (processItem db sm oc).2.1.countP isNotify = if 0 < u then 1 else 0 := by
  by_cases hu : 0 < u <;>
    simp [processItem, saveEvents, hok, hu, List.countP_append,
      List.countP_cons, isNotify, countP_logStepEvents_notify]

/-- Witness for C7 at a concrete item with two updated pages. -/
theorem notify_iff_pages_updated_witness :
    (processItem db0 sm0 oc0).2.1.countP isNotify = if 0 < 2 then 1 else 0 :=
  notify_iff_pages_updated db0 sm0 oc0 2 rfl

theorem map_ofNat_toNat (l : List Char) :
    List.map (Char.ofNat ∘ Char.toNat) l = l := by
  induction l with
  | nil => rfl
  | cons c cs ih => simp [ih, Char.ofNat_toNat, Function.comp]

/-- Round trip of the modelled serialization: deserializing a serialized
query yields the original query. -/
theorem rmp_roundtrip (q : Query) : rmp_from_vec (rmp_to_vec q) = some q := by
  obtain ⟨⟨l⟩⟩ := q
  simp [rmp_to_vec, rmp_from_vec, List.map_map, map_ofNat_toNat]

/-- C9: when the master commits one logged mutating operation that produced a
change, the `log.Transaction` table gains exactly one row — appended at the
end with the next allocated id — and deserializing that row's serialized
payload yields the original operation. -/
theorem master_log_roundtrip (I : String) (n : Bool) (t : Table)
    (sm : ServerMessage) (oc : EngineOutcome) (u : Nat)
    (hl : sm.st.log = true) (hc : oc.changed = true)
    (hok : oc.saveResult = some u) :
    (writerThread true I n (some t) [(sm, oc)]).1.logTable =
      some { next_id := t.next_id + 1
             rows := t.rows ++
               [{ id := (t.next_id : Int), value := rmp_to_vec sm.st.x.qy }] } ∧
    ((writerThread true I n (some t) [(sm, oc)]).1.logTable.map
        (fun t2 => t2.rows.length)) = some (t.rows.length + 1) ∧
    rmp_from_vec (rmp_to_vec sm.st.x.qy) = some sm.st.x.qy := by
  refine ⟨?_, ?_, rmp_roundtrip sm.st.x.qy⟩ <;>
    simp [writerThread, writerLoop, processItem, logStepDb, openDatabase,
      hl, hc, hok, Table.insertSer, Table.alloc_id]

/-- Witness for C9 at a concrete logged, changing, committed operation. -/
theorem master_log_roundtrip_witness :
    (writerThread true "i" false (some table0) [(sm0, oc0)]).1.logTable =
      some { next_id := table0.next_id + 1
             rows := table0.rows ++
               [{ id := (table0.next_id : Int),
                  value := rmp_to_vec sm0.st.x.qy }] } ∧
    ((writerThread true "i" false (some table0) [(sm0, oc0)]).1.logTable.map
        (fun t2 => t2.rows.length)) = some (table0.rows.length + 1) ∧
    rmp_from_vec (rmp_to_vec sm0.st.x.qy) = some sm0.st.x.qy :=
  master_log_roundtrip "i" false table0 sm0 oc0 2 rfl rfl rfl

/-- The `_recover` procedure (main.rs lines 123-142) would run a fixup SQL
against the database; its only call site (main.rs line 77) is commented out. -/
def recoverEvents : List Event := [Event.recover]

/-- C10: the database is initialised with the SQL initialisation string iff
the process runs as master — a replica's database is constructed with the
empty initialisation string — and no recovery step is among the writer
thread's events in either role. -/
theorem init_sql_iff_master_and_no_recovery (m : Bool) (I : String) (n : Bool)
    (t : Option Table) (items : List (ServerMessage × EngineOutcome))
    (hI : I ≠ "") :
    ((openDatabase m I n t).initSql = I ↔ m = true) ∧
    ((openDatabase m I n t).initSql = "" ↔ m = false) ∧
    ∀ e ∈ recoverEvents, e ∉ (writerThread m I n t items).2.1 := by
  have hI2 : ("" : String) ≠ I := Ne.symm hI
  refine ⟨?_, ?_, ?_⟩
  · cases m <;> simp [openDatabase, hI, hI2]
  · cases m <;> simp [openDatabase, hI, hI2]
  · have h0 : (writerThread m I n t items).2.1.countP isRecover = 0 := by
      cases m <;>
        simp [writerThread, openDatabase, List.countP_append, List.countP_cons,
          isRecover,
          writerLoop_countP_zero isRecover countP_processItem_recover items]
    intro e he
    simp only [recoverEvents, List.mem_singleton] at he
    subst he
    intro hmem
    have hrec := (List.countP_eq_zero.mp h0) _ hmem
    simp [isRecover] at hrec

/-- Witness for C10 with a nonempty initialisation string on a replica. -/
theorem init_sql_iff_master_and_no_recovery_witness :
    ((openDatabase false "x" true none).initSql = "x" ↔ false = true) ∧
    ((openDatabase false "x" true none).initSql = "" ↔ false = false) ∧
    ∀ e ∈ recoverEvents,
      e ∉ (writerThread false "x" true none [(sm0, oc0)]).2.1 :=
  init_sql_iff_master_and_no_recovery false "x" true none [(sm0, oc0)]
    (by decide)

end RustWeb
